import Mathlib

/-!
Shallow embedding of the AIONet decision engine
(src/decision_engine/decision_tree.py, class DecisionTree) and proofs
about its catalog operations.

Python dictionaries preserve insertion order, so every dict in the rules
table is embedded as an association list (List of key-value pairs) and
dict lookup becomes List.lookup.  Python None results are embedded as
Option.none or as a dedicated constructor where a single Python return
site can yield values of several runtime types.
-/

namespace AIONet

/-- The value stored under the "datasets" key of a subtask: either a dict
from source name to a list of dataset identifiers (the new Tabular
structure) or a plain list (the old flat structure). -/
inductive DatasetsVal where
  | dict (groups : List (String × List String))
  | flat (items : List String)
deriving DecidableEq, Repr

/-- A subtask stored as a Python dict.  Each field is `Option` because
the code accesses them with `.get` and defaults; a missing key is
`none`. -/
structure TaskRecord where
  models : Option (List String)
  datasets : Option DatasetsVal
  description : Option String
deriving DecidableEq, Repr

/-- The value stored under a subtask key: either a structured dict
(Tabular) or a bare list of dataset names (LLM, CV, Audio). -/
inductive SubtaskData where
  | record (r : TaskRecord)
  | flat (datasets : List String)
deriving DecidableEq, Repr

/-- True exactly on subtasks stored as structured dicts. -/
def SubtaskData.isRecord : SubtaskData → Bool
  | .record _ => true
  | .flat _ => false

/-- A category dict `{"subtasks": {...}}`. -/
structure Category where
  subtasks : List (String × SubtaskData)
deriving DecidableEq, Repr

/-- The models list of Tabular / classification (decision_tree.py
lines 15-21). -/
def tabular_classification_models : List String :=
  [ "LogisticRegression",
    "RandomForestClassifier",
    "GradientBoostingClassifier",
    "SVC",
    "KNeighborsClassifier" ]

/-- The datasets dict of Tabular / classification (decision_tree.py
lines 22-34). -/
def tabular_classification_datasets : DatasetsVal :=
  .dict [
    ("sklearn", [ "load_iris",
                  "load_wine",
                  "load_breast_cancer",
                  "load_digits" ]),
    ("kaggle", [ "alexisbcook/titanic",
                 "uciml/mushroom-classification",
                 "uciml/sms-spam-collection-dataset" ]) ]

/-- The Tabular / classification subtask dict (decision_tree.py
lines 14-36). -/
def tabular_classification : TaskRecord :=
  ⟨some tabular_classification_models,
   some tabular_classification_datasets,
   some "Предсказание категориальной переменной (класса)"⟩

/-- The models list of Tabular / regression (decision_tree.py
lines 38-44). -/
def tabular_regression_models : List String :=
  [ "LinearRegression",
    "Ridge",
    "Lasso",
    "RandomForestRegressor",
    "GradientBoostingRegressor" ]

/-- The datasets dict of Tabular / regression (decision_tree.py
lines 45-54). -/
def tabular_regression_datasets : DatasetsVal :=
  .dict [
    ("sklearn", [ "load_diabetes",
                  "california_housing" ]),
    ("kaggle", [ "c/house-prices-advanced-regression-techniques",
                 "c/bike-sharing-demand" ]) ]

/-- The Tabular / regression subtask dict (decision_tree.py
lines 37-56). -/
def tabular_regression : TaskRecord :=
  ⟨some tabular_regression_models,
   some tabular_regression_datasets,
   some "Предсказание числовой переменной"⟩

/-- The "Tabular" category (decision_tree.py lines 12-58). -/
def tabularCategory : Category :=
  ⟨[ ("classification", .record tabular_classification),
     ("regression", .record tabular_regression) ]⟩

/-- The "LLM" category (decision_tree.py lines 61-68). -/
def llmCategory : Category :=
  ⟨[ ("code", .flat ["TheStack", "CodeParrot", "BigCodeBench"]),
     ("chat", .flat ["ShareGPT", "OpenAssistant", "UltraChat"]),
     ("translation", .flat ["WMT", "ParaCrawl"]),
     ("summarization", .flat ["CNN/DailyMail", "XSUM"]) ]⟩

/-- The "CV" category (decision_tree.py lines 70-76). -/
def cvCategory : Category :=
  ⟨[ ("detection", .flat ["COCO", "Objects365", "OpenImages"]),
     ("classification", .flat ["ImageNet", "CIFAR-10", "CIFAR-100"]),
     ("segmentation", .flat ["ADE20K", "Cityscapes"]) ]⟩

/-- The "Audio" category (decision_tree.py lines 78-84). -/
def audioCategory : Category :=
  ⟨[ ("speech_to_text", .flat ["LibriSpeech", "CommonVoice"]),
     ("speaker_id", .flat ["VoxCeleb", "LibriSpeech"]),
     ("audio_classification", .flat ["ESC-50", "UrbanSound8K"]) ]⟩

/-- `self.rules` built in `DecisionTree.__init__` (decision_tree.py
lines 10-85). -/
def rules : List (String × Category) :=
  [ ("Tabular", tabularCategory),
    ("LLM", llmCategory),
    ("CV", cvCategory),
    ("Audio", audioCategory) ]

/-- Python substring test `needle in hay` on strings, via character
lists. -/
def strContains (needle hay : String) : Bool :=
  decide (needle.toList <:+: hay.toList)

/-- `get_subtasks` (decision_tree.py lines 87-92).  `if not task` is
taken on a category dict, which is nonempty whenever present, so it is
exactly the missing-key test. -/
def get_subtasks (task_type : String) : Option (List String) :=
  match List.lookup task_type rules with
  | none => none
  | some task => some (task.subtasks.map Prod.fst)

/-- Result of `get_datasets`: the single Python function returns None,
a list of strings, or (when a structured subtask has no "datasets" key)
the subtask dict itself. -/
inductive DatasetsResult where
  | pyNone
  | items (l : List String)
  | rawRecord (r : TaskRecord)
deriving DecidableEq, Repr

/-- `get_datasets` (decision_tree.py lines 94-130). -/
def get_datasets (task_type subtask : String) (source : String := "all") :
    DatasetsResult :=
  match List.lookup task_type rules with
  | none => .pyNone
  | some task =>
    match List.lookup subtask task.subtasks with
    | some (.record r) =>
      match r.datasets with
      | some (.dict groups) =>
        if source == "all" then
          -- all_datasets = []; for src in datasets.values(): extend
          .items (groups.foldl (fun acc g => acc ++ g.2) [])
        else
          .items ((List.lookup source groups).getD [])
      | some (.flat items) => .items items
      | none => .rawRecord r      -- falls through to `return subtask_data`
    | some (.flat ds) => .items ds -- old structure: `return subtask_data`
    | none => .pyNone

/-- `get_models` (decision_tree.py lines 132-145): `None` when the
category is absent, the subtask is absent, or the subtask is not a
dict; otherwise `subtask_data.get("models", [])`. -/
def get_models (task_type subtask : String) : Option (List String) :=
  match List.lookup task_type rules with
  | none => none
  | some task =>
    match List.lookup subtask task.subtasks with
    | some (.record r) => some (r.models.getD [])
    | _ => none

/-- The composite dict returned by `get_task_info`. -/
structure TaskInfo where
  models : List String
  datasets : DatasetsVal
  description : String
deriving DecidableEq, Repr

/-- `get_task_info` (decision_tree.py lines 147-164).  The default for
a missing "datasets" key is the empty Python list, i.e. `.flat []`. -/
def get_task_info (task_type subtask : String) : Option TaskInfo :=
  match List.lookup task_type rules with
  | none => none
  | some task =>
    match List.lookup subtask task.subtasks with
    | some (.record r) =>
      some ⟨r.models.getD [], r.datasets.getD (.flat []),
            r.description.getD ""⟩
    | _ => none

/-- A criteria dict.  Only truthiness of the looked-up values matters
to the code, so values are embedded as Bool. -/
def Criteria := List (String × Bool)

/-- `criteria.get(key)`: the stored value, falsy (`false`) when the key
is absent. -/
def Criteria.get (c : Criteria) (key : String) : Bool :=
  (List.lookup key c).getD false

/-- The sequential model filtering of `filter_by_criteria`
(decision_tree.py lines 187-200): each active switch refilters the
list produced by the previous one. -/
def criteriaFilter (criteria : Criteria) (models0 : List String) :
    List String :=
  let models := models0
  let models := if criteria.get "fast_training" then
      models.filter (fun m =>
        strContains "Linear" m || strContains "Logistic" m ||
        strContains "KNeighbors" m)
    else models
  let models := if criteria.get "interpretable" then
      models.filter (fun m =>
        strContains "Linear" m || strContains "Logistic" m ||
        strContains "Tree" m)
    else models
  let models := if criteria.get "high_accuracy" then
      models.filter (fun m =>
        strContains "Forest" m || strContains "Boosting" m)
    else models
  models

/-- One entry of the dict returned by `filter_by_criteria`. -/
structure FilterEntry where
  models : List String
  datasets : DatasetsVal
deriving DecidableEq, Repr

/-- The loop of `filter_by_criteria` (decision_tree.py lines 181-205):
subtasks that are not dicts are skipped; a dict subtask missing the
"models" or "datasets" key would raise KeyError, embedded as `none`. -/
def filterSubtasks (criteria : Criteria) :
    List (String × SubtaskData) → Option (List (String × FilterEntry))
  | [] => some []
  | (_, .flat _) :: rest => filterSubtasks criteria rest
  | (name, .record r) :: rest =>
    match r.models, r.datasets with
    | some ms, some ds =>
      let models := criteriaFilter criteria ms
      -- "models": models if models else subtask_data["models"]
      let entry : FilterEntry := ⟨if models.isEmpty then ms else models, ds⟩
      (filterSubtasks criteria rest).map (fun es => (name, entry) :: es)
    | _, _ => none

/-- Result of `filter_by_criteria`: Python returns None for a missing
category, raises KeyError on a malformed dict subtask, and otherwise
returns a dict. -/
inductive FilterResult where
  | pyNone
  | keyError
  | ok (entries : List (String × FilterEntry))
deriving DecidableEq, Repr

/-- `filter_by_criteria` (decision_tree.py lines 166-207). -/
def filter_by_criteria (task_type : String) (criteria : Criteria) :
    FilterResult :=
  match List.lookup task_type rules with
  | none => .pyNone
  | some task =>
    match filterSubtasks criteria task.subtasks with
    | none => .keyError
    | some es => .ok es

/-! ### Claim-side definitions

The following definitions restate, in the words of the specification,
the model-filtering pipeline of `filterByCriteria`: three boolean
switches in the fixed precedence fast_training, interpretable,
high_accuracy, each one refiltering the output of the previous one,
keeping a model iff its identifier contains one of the keywords of the
switch as a case-sensitive substring.  They are compared against the
source-derived `criteriaFilter`. -/

/-- Spec wording: fast_training keeps models whose identifier contains
"Linear", "Logistic", or "KNeighbors". -/
def fastTrainingKeep_spec (m : String) : Bool :=
  strContains "Linear" m || strContains "Logistic" m ||
  strContains "KNeighbors" m

/-- Spec wording: interpretable keeps models whose identifier contains
"Linear", "Logistic", or "Tree". -/
def interpretableKeep_spec (m : String) : Bool :=
  strContains "Linear" m || strContains "Logistic" m ||
  strContains "Tree" m

/-- Spec wording: high_accuracy keeps models whose identifier contains
"Forest" or "Boosting". -/
def highAccuracyKeep_spec (m : String) : Bool :=
  strContains "Forest" m || strContains "Boosting" m

/-- Spec wording of the filtering pipeline: apply fast_training first,
then interpretable, then high_accuracy, each refiltering the list the
previous step produced. -/
def criteriaFilter_spec (c : Criteria) (models : List String) :
    List String :=
  let step1 := if c.get "fast_training" then
      models.filter fastTrainingKeep_spec else models
  let step2 := if c.get "interpretable" then
      step1.filter interpretableKeep_spec else step1
  let step3 := if c.get "high_accuracy" then
      step2.filter highAccuracyKeep_spec else step2
  step3

/-- True exactly on the flat-list variant of a datasets value. -/
def DatasetsVal.isFlat : DatasetsVal → Bool
  | .flat _ => true
  | .dict _ => false

/-! ### Helper lemmas -/

theorem mem_snd_of_lookup {α β : Type} [BEq α] {k : α} {v : β}
    {l : List (α × β)} (h : List.lookup k l = some v) :
    v ∈ l.map Prod.snd := by
  induction l with
  | nil => simp [List.lookup] at h
  | cons p rest ih =>
    obtain ⟨a, b⟩ := p
    rw [List.lookup] at h
    cases hk : k == a <;> rw [hk] at h
    · exact List.mem_cons_of_mem _ (ih h)
    · simp at h
      simp [h]

theorem filter_ok_inv {t : String} {c : Criteria}
    {es : List (String × FilterEntry)}
    (h : filter_by_criteria t c = .ok es) :
    ∃ cat, List.lookup t rules = some cat ∧
      filterSubtasks c cat.subtasks = some es := by
  unfold filter_by_criteria at h
  split at h
  next => simp at h
  next cat hl =>
    split at h
    next => simp at h
    next es2 hf =>
      simp only [FilterResult.ok.injEq] at h
      subst h
      exact ⟨cat, hl, hf⟩

theorem filterSubtasks_mem {c : Criteria} :
    ∀ {subs : List (String × SubtaskData)}
      {es : List (String × FilterEntry)},
      filterSubtasks c subs = some es →
      ∀ {n : String} {e : FilterEntry}, (n, e) ∈ es →
      ∃ r ms ds, (n, SubtaskData.record r) ∈ subs ∧ r.models = some ms ∧
        r.datasets = some ds ∧
        e.models = (if (criteriaFilter c ms).isEmpty then ms
                    else criteriaFilter c ms) ∧
        e.datasets = ds := by
  intro subs
  induction subs with
  | nil =>
    intro es h n e hm
    simp [filterSubtasks] at h
    subst h
    simp at hm
  | cons p rest ih =>
    intro es h n e hm
    obtain ⟨name, sd⟩ := p
    cases sd with
    | flat ds0 =>
      rw [filterSubtasks] at h
      obtain ⟨r, ms, ds, hmem, h1, h2, h3, h4⟩ := ih h hm
      exact ⟨r, ms, ds, List.mem_cons_of_mem _ hmem, h1, h2, h3, h4⟩
    | record r0 =>
      rw [filterSubtasks] at h
      cases hms : r0.models with
      | none => rw [hms] at h; simp at h
      | some ms0 =>
        cases hds : r0.datasets with
        | none => rw [hms, hds] at h; simp at h
        | some ds0 =>
          rw [hms, hds] at h
          cases hrest : filterSubtasks c rest with
          | none => rw [hrest] at h; simp at h
          | some es2 =>
            rw [hrest] at h
            simp only [Option.map_some', Option.some.injEq] at h
            subst h
            rcases List.mem_cons.mp hm with hhead | htail
            · rw [Prod.mk.injEq] at hhead
              obtain ⟨hn, he⟩ := hhead
              subst hn
              subst he
              exact ⟨r0, ms0, ds0, List.mem_cons_self _ _, hms, hds,
                     rfl, rfl⟩
            · obtain ⟨r, ms, ds, hmem, h1, h2, h3, h4⟩ := ih hrest htail
              exact ⟨r, ms, ds, List.mem_cons_of_mem _ hmem, h1, h2,
                     h3, h4⟩

theorem criteriaFilter_sublist (c : Criteria) (ms : List String) :
    (criteriaFilter c ms).Sublist ms := by
  have step : ∀ (b : Bool) (p : String → Bool) (l : List String),
      (if b then l.filter p else l).Sublist l := by
    intro b p l
    cases b
    · simp
    · simp [List.filter_sublist l]
  simp only [criteriaFilter]
  exact (step _ _ _).trans ((step _ _ _).trans (step _ _ _))

theorem criteriaFilter_congr {c₁ c₂ : Criteria}
    (h1 : c₁.get "fast_training" = c₂.get "fast_training")
    (h2 : c₁.get "interpretable" = c₂.get "interpretable")
    (h3 : c₁.get "high_accuracy" = c₂.get "high_accuracy")
    (ms : List String) :
    criteriaFilter c₁ ms = criteriaFilter c₂ ms := by
  simp only [criteriaFilter, h1, h2, h3]

theorem filterSubtasks_congr {c₁ c₂ : Criteria}
    (h1 : c₁.get "fast_training" = c₂.get "fast_training")
    (h2 : c₁.get "interpretable" = c₂.get "interpretable")
    (h3 : c₁.get "high_accuracy" = c₂.get "high_accuracy") :
    ∀ subs, filterSubtasks c₁ subs = filterSubtasks c₂ subs := by
  intro subs
  induction subs with
  | nil => rfl
  | cons p rest ih =>
    obtain ⟨name, sd⟩ := p
    cases sd with
    | flat ds0 => rw [filterSubtasks, filterSubtasks]; exact ih
    | record r =>
      rw [filterSubtasks, filterSubtasks]
      cases hms : r.models <;> cases hds : r.datasets <;>
        simp [criteriaFilter_congr h1 h2 h3, ih]

theorem criteriaFilter_inactive {c : Criteria}
    (h1 : c.get "fast_training" = false)
    (h2 : c.get "interpretable" = false)
    (h3 : c.get "high_accuracy" = false) (ms : List String) :
    criteriaFilter c ms = ms := by
  simp [criteriaFilter, h1, h2, h3]

theorem foldl_append_eq_flatten {α β : Type} (f : β → List α) :
    ∀ (l : List β) (init : List α),
      l.foldl (fun acc g => acc ++ f g) init = init ++ (l.map f).flatten := by
  intro l
  induction l with
  | nil => intro init; simp
  | cons g rest ih => intro init; simp [List.foldl, ih]

theorem filterSubtasks_tabular (c : Criteria) :
    filterSubtasks c tabularCategory.subtasks = some
      [ ("classification",
         ⟨if (criteriaFilter c tabular_classification_models).isEmpty
           then tabular_classification_models
           else criteriaFilter c tabular_classification_models,
          tabular_classification_datasets⟩),
        ("regression",
         ⟨if (criteriaFilter c tabular_regression_models).isEmpty
           then tabular_regression_models
           else criteriaFilter c tabular_regression_models,
          tabular_regression_datasets⟩) ] := rfl

theorem filterSubtasks_llm (c : Criteria) :
    filterSubtasks c llmCategory.subtasks = some [] := rfl

theorem filterSubtasks_cv (c : Criteria) :
    filterSubtasks c cvCategory.subtasks = some [] := rfl

theorem filterSubtasks_audio (c : Criteria) :
    filterSubtasks c audioCategory.subtasks = some [] := rfl

/-! ### Claim theorems -/

/-- C1: For every criteria object and model list, the filtering of
`filter_by_criteria` applies the three switches in the fixed precedence
fast_training, interpretable, high_accuracy, each refiltering the list
produced by the previous step, keeping a model iff its identifier
contains (case-sensitive substring) one of the keywords of the switch;
in particular `{fast_training: true, high_accuracy: true}` on Tabular
classification first keeps LogisticRegression and KNeighborsClassifier,
then high_accuracy empties that reduced list, and the fallback restores
the full original lists. -/
theorem filterByCriteria_matches_spec_pipeline :
    (∀ (c : Criteria) (ms : List String),
      criteriaFilter c ms = criteriaFilter_spec c ms)
    ∧ (∀ (ms : List String) (m : String),
        (m ∈ ms.filter fastTrainingKeep_spec ↔
          m ∈ ms ∧ fastTrainingKeep_spec m = true)
        ∧ (m ∈ ms.filter interpretableKeep_spec ↔
            m ∈ ms ∧ interpretableKeep_spec m = true)
        ∧ (m ∈ ms.filter highAccuracyKeep_spec ↔
            m ∈ ms ∧ highAccuracyKeep_spec m = true))
    ∧ tabular_classification_models.filter fastTrainingKeep_spec =
        ["LogisticRegression", "KNeighborsClassifier"]
    ∧ List.filter highAccuracyKeep_spec
        ["LogisticRegression", "KNeighborsClassifier"] = []
    ∧ filter_by_criteria "Tabular"
        [("fast_training", true), ("high_accuracy", true)] =
      .ok [ ("classification",
             ⟨tabular_classification_models,
              tabular_classification_datasets⟩),
            ("regression",
             ⟨tabular_regression_models, tabular_regression_datasets⟩) ] :=
  ⟨fun _ _ => rfl,
   fun _ _ => ⟨List.mem_filter, List.mem_filter, List.mem_filter⟩,
   by decide, by decide, by decide⟩

/-- C2: For every category, criteria and subtask entry of the result of
`filter_by_criteria`, the subtask comes from the rules table with a
stored models list, and whenever that original list is nonempty the
returned list is nonempty; when the filter removes everything the
original list is returned. -/
theorem filterByCriteria_nonempty_fallback :
    ∀ (t : String) (c : Criteria) (es : List (String × FilterEntry)),
      filter_by_criteria t c = .ok es →
      ∀ (n : String) (e : FilterEntry), (n, e) ∈ es →
      ∃ cat r ms, List.lookup t rules = some cat ∧
        (n, SubtaskData.record r) ∈ cat.subtasks ∧ r.models = some ms ∧
        (ms ≠ [] → e.models ≠ []) ∧
        (criteriaFilter c ms = [] → e.models = ms) := by
  intro t c es h n e hm
  obtain ⟨cat, hl, hf⟩ := filter_ok_inv h
  obtain ⟨r, ms, ds, hmem, h1, h2, h3, h4⟩ := filterSubtasks_mem hf hm
  refine ⟨cat, r, ms, hl, hmem, h1, fun hne => ?_, fun hz => ?_⟩
  · rw [h3]
    cases hemp : (criteriaFilter c ms).isEmpty
    · simp only [hemp, Bool.false_eq_true, if_false]
      intro hc
      rw [hc] at hemp
      simp at hemp
    · simp only [hemp, if_true]
      exact hne
  · rw [h3, hz]
    simp

/-- C2 witness at Tabular with interpretable set: the classification
entry keeps exactly LogisticRegression and is nonempty. -/
theorem filterByCriteria_nonempty_fallback_witness :
    ∃ cat r ms, List.lookup "Tabular" rules = some cat ∧
      ("classification", SubtaskData.record r) ∈ cat.subtasks ∧
      r.models = some ms ∧
      (ms ≠ [] →
        FilterEntry.models
          ⟨["LogisticRegression"], tabular_classification_datasets⟩ ≠ []) ∧
      (criteriaFilter [("interpretable", true)] ms = [] →
        FilterEntry.models
          ⟨["LogisticRegression"], tabular_classification_datasets⟩ = ms) :=
  filterByCriteria_nonempty_fallback "Tabular" [("interpretable", true)]
    [ ("classification",
       ⟨["LogisticRegression"], tabular_classification_datasets⟩),
      ("regression",
       ⟨["LinearRegression"], tabular_regression_datasets⟩) ]
    (by decide) "classification"
    ⟨["LogisticRegression"], tabular_classification_datasets⟩ (by decide)

/-- C3 counterexample: getTaskInfo signals NotFound for the LLM subtask
"code" even though it is present, and the datasets field returned for
Tabular classification is the grouped dict as stored, not a flat
sequence. -/
theorem getTaskInfo_cex :
    get_task_info "LLM" "code" = none
    ∧ List.lookup "LLM" rules = some llmCategory
    ∧ List.lookup "code" llmCategory.subtasks =
        some (.flat ["TheStack", "CodeParrot", "BigCodeBench"])
    ∧ (get_task_info "Tabular" "classification").map
        (fun info => info.datasets.isFlat) = some false := by decide

/-- C3 amended: for every category and subtask stored as a structured
record, getTaskInfo returns the models, the stored datasets value
unchanged (still grouped when stored grouped), and the description,
each with its default; it returns NotFound when the category or
subtask is absent and also when the subtask is a bare dataset list. -/
theorem getTaskInfo_characterization :
    (∀ (t s : String) (cat : Category) (r : TaskRecord),
      List.lookup t rules = some cat →
      List.lookup s cat.subtasks = some (.record r) →
      get_task_info t s =
        some ⟨r.models.getD [], r.datasets.getD (.flat []),
              r.description.getD ""⟩)
    ∧ (∀ t s : String, List.lookup t rules = none →
        get_task_info t s = none)
    ∧ (∀ (t s : String) (cat : Category),
        List.lookup t rules = some cat →
        List.lookup s cat.subtasks = none → get_task_info t s = none)
    ∧ (∀ (t s : String) (cat : Category) (ds : List String),
        List.lookup t rules = some cat →
        List.lookup s cat.subtasks = some (.flat ds) →
        get_task_info t s = none) := by
  refine ⟨?_, ?_, ?_, ?_⟩
  · intro t s cat r hl hs
    simp [get_task_info, hl, hs]
  · intro t s hl
    simp [get_task_info, hl]
  · intro t s cat hl hs
    simp [get_task_info, hl, hs]
  · intro t s cat ds hl hs
    simp [get_task_info, hl, hs]

/-- C3 witness: the record case at Tabular classification and the
bare-list case at LLM code. -/
theorem getTaskInfo_characterization_witness :
    get_task_info "Tabular" "classification" =
      some ⟨tabular_classification.models.getD [],
            tabular_classification.datasets.getD (.flat []),
            tabular_classification.description.getD ""⟩
    ∧ get_task_info "LLM" "code" = none :=
  ⟨getTaskInfo_characterization.1 "Tabular" "classification"
      tabularCategory tabular_classification (by decide) (by decide),
   getTaskInfo_characterization.2.2.2 "LLM" "code" llmCategory
      ["TheStack", "CodeParrot", "BigCodeBench"] (by decide) (by decide)⟩

/-- C4 counterexample: getModels on the present LLM subtask "code"
signals NotFound instead of returning an empty sequence. -/
theorem getModels_cex :
    get_models "LLM" "code" = none
    ∧ List.lookup "LLM" rules = some llmCategory
    ∧ List.lookup "code" llmCategory.subtasks =
        some (.flat ["TheStack", "CodeParrot", "BigCodeBench"]) := by decide

/-- C4 amended: getModels returns the stored model list (default empty)
exactly for subtasks stored as structured records; it signals NotFound
when the category or subtask is absent and also for every subtask
stored as a bare dataset list (all LLM, CV and Audio subtasks). -/
theorem getModels_characterization :
    (∀ (t s : String) (cat : Category) (r : TaskRecord),
      List.lookup t rules = some cat →
      List.lookup s cat.subtasks = some (.record r) →
      get_models t s = some (r.models.getD []))
    ∧ (∀ t s : String, List.lookup t rules = none → get_models t s = none)
    ∧ (∀ (t s : String) (cat : Category),
        List.lookup t rules = some cat →
        List.lookup s cat.subtasks = none → get_models t s = none)
    ∧ (∀ (t s : String) (cat : Category) (ds : List String),
        List.lookup t rules = some cat →
        List.lookup s cat.subtasks = some (.flat ds) →
        get_models t s = none) := by
  refine ⟨?_, ?_, ?_, ?_⟩
  · intro t s cat r hl hs
    simp [get_models, hl, hs]
  · intro t s hl
    simp [get_models, hl]
  · intro t s cat hl hs
    simp [get_models, hl, hs]
  · intro t s cat ds hl hs
    simp [get_models, hl, hs]

/-- C4 witness: the record case at Tabular regression and the bare-list
case at CV detection. -/
theorem getModels_characterization_witness :
    get_models "Tabular" "regression" =
      some (tabular_regression.models.getD [])
    ∧ get_models "CV" "detection" = none :=
  ⟨getModels_characterization.1 "Tabular" "regression" tabularCategory
      tabular_regression (by decide) (by decide),
   getModels_characterization.2.2.2 "CV" "detection" cvCategory
      ["COCO", "Objects365", "OpenImages"] (by decide) (by decide)⟩

/-- C5 counterexample: filterByCriteria on LLM returns an empty mapping
although LLM defines four subtasks. -/
theorem filterByCriteria_entries_cex :
    filter_by_criteria "LLM" [] = .ok []
    ∧ List.lookup "LLM" rules = some llmCategory
    ∧ llmCategory.subtasks.map Prod.fst =
        ["code", "chat", "translation", "summarization"] := by decide

/-- C5 amended: for every defined category and criteria,
filterByCriteria returns one entry, in order, per subtask stored as a
structured record (all subtasks of Tabular, none of LLM, CV, Audio),
and signals NotFound exactly when the category is absent. -/
theorem filterByCriteria_entries_characterization :
    (∀ (t : String) (c : Criteria) (cat : Category),
      List.lookup t rules = some cat →
      ∃ es, filter_by_criteria t c = .ok es ∧
        es.map Prod.fst =
          (cat.subtasks.filter (fun p => p.2.isRecord)).map Prod.fst)
    ∧ (∀ (t : String) (c : Criteria),
        List.lookup t rules = none → filter_by_criteria t c = .pyNone) := by
  constructor
  · intro t c cat hl
    have hmem := mem_snd_of_lookup hl
    simp [rules] at hmem
    rcases hmem with h | h | h | h <;> subst h
    · refine ⟨[ ("classification",
           ⟨if (criteriaFilter c tabular_classification_models).isEmpty
             then tabular_classification_models
             else criteriaFilter c tabular_classification_models,
            tabular_classification_datasets⟩),
          ("regression",
           ⟨if (criteriaFilter c tabular_regression_models).isEmpty
             then tabular_regression_models
             else criteriaFilter c tabular_regression_models,
            tabular_regression_datasets⟩) ], ?_, rfl⟩
      simp [filter_by_criteria, hl, filterSubtasks_tabular]
    · refine ⟨[], ?_, rfl⟩
      simp [filter_by_criteria, hl, filterSubtasks_llm]
    · refine ⟨[], ?_, rfl⟩
      simp [filter_by_criteria, hl, filterSubtasks_cv]
    · refine ⟨[], ?_, rfl⟩
      simp [filter_by_criteria, hl, filterSubtasks_audio]
  · intro t c hl
    simp [filter_by_criteria, hl]

/-- C5 witness: Tabular yields entries for both record subtasks under
high_accuracy, and an undefined category yields NotFound. -/
theorem filterByCriteria_entries_characterization_witness :
    (∃ es, filter_by_criteria "Tabular" [("high_accuracy", true)] =
        .ok es ∧
      es.map Prod.fst =
        (tabularCategory.subtasks.filter
          (fun p => p.2.isRecord)).map Prod.fst)
    ∧ filter_by_criteria "NoSuchCategory" [] = .pyNone :=
  ⟨filterByCriteria_entries_characterization.1 "Tabular"
      [("high_accuracy", true)] tabularCategory (by decide),
   filterByCriteria_entries_characterization.2 "NoSuchCategory" []
      (by decide)⟩

/-- C6: For every subtask whose datasets are grouped by source,
listDatasets with source "all" returns the concatenation of the groups
in definition order, preserving internal order and without
deduplication; on Tabular classification this is the four sklearn
entries followed by the three kaggle entries. -/
theorem getDatasets_all_concat :
    (∀ (t s : String) (cat : Category) (r : TaskRecord)
       (groups : List (String × List String)),
      List.lookup t rules = some cat →
      List.lookup s cat.subtasks = some (.record r) →
      r.datasets = some (.dict groups) →
      get_datasets t s "all" = .items ((groups.map Prod.snd).flatten))
    ∧ get_datasets "Tabular" "classification" "all" =
        .items [ "load_iris", "load_wine", "load_breast_cancer",
                 "load_digits", "alexisbcook/titanic",
                 "uciml/mushroom-classification",
                 "uciml/sms-spam-collection-dataset" ] := by
  constructor
  · intro t s cat r groups hl hs hd
    have hb : ("all" == "all") = true := by decide
    simp only [get_datasets, hl, hs, hd, hb, if_true,
               DatasetsResult.items.injEq]
    rw [foldl_append_eq_flatten]
    simp
  · decide

/-- C6 witness: the grouped case at Tabular regression. -/
theorem getDatasets_all_concat_witness :
    get_datasets "Tabular" "regression" "all" =
      .items ((([ ("sklearn", [ "load_diabetes", "california_housing" ]),
                  ("kaggle",
                   [ "c/house-prices-advanced-regression-techniques",
                     "c/bike-sharing-demand" ]) ]).map Prod.snd).flatten) :=
  getDatasets_all_concat.1 "Tabular" "regression" tabularCategory
    tabular_regression
    [ ("sklearn", [ "load_diabetes", "california_housing" ]),
      ("kaggle", [ "c/house-prices-advanced-regression-techniques",
                   "c/bike-sharing-demand" ]) ]
    (by decide) (by decide) (by decide)

/-- C7: For every subtask whose datasets are grouped by source,
listDatasets with a specific source name returns exactly that group,
and an absent group name yields an empty sequence, not an error; in
particular the sklearn group of Tabular classification. -/
theorem getDatasets_source_select :
    (∀ (t s src : String) (cat : Category) (r : TaskRecord)
       (groups : List (String × List String)) (items : List String),
      List.lookup t rules = some cat →
      List.lookup s cat.subtasks = some (.record r) →
      r.datasets = some (.dict groups) →
      src ≠ "all" →
      List.lookup src groups = some items →
      get_datasets t s src = .items items)
    ∧ (∀ (t s src : String) (cat : Category) (r : TaskRecord)
         (groups : List (String × List String)),
      List.lookup t rules = some cat →
      List.lookup s cat.subtasks = some (.record r) →
      r.datasets = some (.dict groups) →
      src ≠ "all" →
      List.lookup src groups = none →
      get_datasets t s src = .items [])
    ∧ get_datasets "Tabular" "classification" "sklearn" =
        .items ["load_iris", "load_wine", "load_breast_cancer",
                "load_digits"]
    ∧ get_datasets "Tabular" "classification" "nonexistent" =
        .items [] := by
  refine ⟨?_, ?_, by decide, by decide⟩
  · intro t s src cat r groups items hl hs hd hne hlk
    have hb : (src == "all") = false := by
      simp [hne]
    simp [get_datasets, hl, hs, hd, hb, hlk]
  · intro t s src cat r groups hl hs hd hne hlk
    have hb : (src == "all") = false := by
      simp [hne]
    simp [get_datasets, hl, hs, hd, hb, hlk]

/-- C7 witness: the kaggle group of Tabular classification, and a
missing group on Tabular regression. -/
theorem getDatasets_source_select_witness :
    get_datasets "Tabular" "classification" "kaggle" =
      .items [ "alexisbcook/titanic", "uciml/mushroom-classification",
               "uciml/sms-spam-collection-dataset" ]
    ∧ get_datasets "Tabular" "regression" "huggingface" = .items [] :=
  ⟨getDatasets_source_select.1 "Tabular" "classification" "kaggle"
      tabularCategory tabular_classification
      [ ("sklearn", [ "load_iris", "load_wine", "load_breast_cancer",
                      "load_digits" ]),
        ("kaggle", [ "alexisbcook/titanic",
                     "uciml/mushroom-classification",
                     "uciml/sms-spam-collection-dataset" ]) ]
      [ "alexisbcook/titanic", "uciml/mushroom-classification",
        "uciml/sms-spam-collection-dataset" ]
      (by decide) (by decide) (by decide) (by decide) (by decide),
   getDatasets_source_select.2.1 "Tabular" "regression" "huggingface"
      tabularCategory tabular_regression
      [ ("sklearn", [ "load_diabetes", "california_housing" ]),
        ("kaggle", [ "c/house-prices-advanced-regression-techniques",
                     "c/bike-sharing-demand" ]) ]
      (by decide) (by decide) (by decide) (by decide) (by decide)⟩

/-- C8: listSubtasks returns the ordered subtask keys of every defined
category, and on an undefined category both listSubtasks and listModels
signal NotFound. -/
theorem getSubtasks_and_notFound :
    (∀ (t : String) (cat : Category), List.lookup t rules = some cat →
      get_subtasks t = some (cat.subtasks.map Prod.fst))
    ∧ (∀ t : String, List.lookup t rules = none →
        get_subtasks t = none ∧ ∀ s : String, get_models t s = none)
    ∧ get_subtasks "Tabular" = some ["classification", "regression"]
    ∧ get_subtasks "LLM" =
        some ["code", "chat", "translation", "summarization"]
    ∧ get_subtasks "CV" =
        some ["detection", "classification", "segmentation"]
    ∧ get_subtasks "Audio" =
        some ["speech_to_text", "speaker_id", "audio_classification"] := by
  refine ⟨?_, ?_, by decide, by decide, by decide, by decide⟩
  · intro t cat hl
    simp [get_subtasks, hl]
  · intro t hl
    exact ⟨by simp [get_subtasks, hl], fun s => by simp [get_models, hl]⟩

/-- C8 witness: the Audio category and the undefined category
"NoSuchCategory" with subtask argument "x". -/
theorem getSubtasks_and_notFound_witness :
    get_subtasks "Audio" = some (audioCategory.subtasks.map Prod.fst)
    ∧ get_subtasks "NoSuchCategory" = none
    ∧ get_models "NoSuchCategory" "x" = none :=
  ⟨getSubtasks_and_notFound.1 "Audio" audioCategory (by decide),
   (getSubtasks_and_notFound.2.1 "NoSuchCategory" (by decide)).1,
   (getSubtasks_and_notFound.2.1 "NoSuchCategory" (by decide)).2 "x"⟩

/-- C9: filterByCriteria never raises for any criteria object: it never
produces the KeyError outcome, its result depends only on the three
recognized switches (so unrecognized or missing switches are inactive),
and with all three switches inactive every returned entry carries the
original model list unchanged. -/
theorem filterByCriteria_criteria_robust :
    ∀ (t : String) (c : Criteria),
      filter_by_criteria t c ≠ .keyError
      ∧ (∀ c₂ : Criteria,
          c.get "fast_training" = c₂.get "fast_training" →
          c.get "interpretable" = c₂.get "interpretable" →
          c.get "high_accuracy" = c₂.get "high_accuracy" →
          filter_by_criteria t c = filter_by_criteria t c₂)
      ∧ (c.get "fast_training" = false →
         c.get "interpretable" = false →
         c.get "high_accuracy" = false →
         ∀ (es : List (String × FilterEntry)) (n : String)
           (e : FilterEntry),
           filter_by_criteria t c = .ok es → (n, e) ∈ es →
           ∃ cat r ms, List.lookup t rules = some cat ∧
             (n, SubtaskData.record r) ∈ cat.subtasks ∧
             r.models = some ms ∧ e.models = ms) := by
  intro t c
  refine ⟨?_, ?_, ?_⟩
  · cases hl : List.lookup t rules with
    | none => simp [filter_by_criteria, hl]
    | some cat =>
      have hmem := mem_snd_of_lookup hl
      simp [rules] at hmem
      rcases hmem with h | h | h | h <;> subst h <;>
        simp [filter_by_criteria, hl, filterSubtasks_tabular,
              filterSubtasks_llm, filterSubtasks_cv, filterSubtasks_audio]
  · intro c₂ h1 h2 h3
    cases hl : List.lookup t rules with
    | none => simp [filter_by_criteria, hl]
    | some cat =>
      simp [filter_by_criteria, hl,
            filterSubtasks_congr h1 h2 h3 cat.subtasks]
  · intro h1 h2 h3 es n e hok hm
    obtain ⟨cat, hl, hf⟩ := filter_ok_inv hok
    obtain ⟨r, ms, ds, hmem, hm1, hm2, hm3, hm4⟩ := filterSubtasks_mem hf hm
    refine ⟨cat, r, ms, hl, hmem, hm1, ?_⟩
    rw [hm3, criteriaFilter_inactive h1 h2 h3]
    exact ite_self ms

/-- C9 witness: the unrecognized switch small_data behaves exactly like
no criteria at all on Tabular, no KeyError arises, and the
classification entry keeps its original model list. -/
theorem filterByCriteria_criteria_robust_witness :
    filter_by_criteria "Tabular" [("small_data", true)] ≠ .keyError
    ∧ filter_by_criteria "Tabular" [("small_data", true)] =
        filter_by_criteria "Tabular" []
    ∧ ∃ cat r ms, List.lookup "Tabular" rules = some cat ∧
        ("classification", SubtaskData.record r) ∈ cat.subtasks ∧
        r.models = some ms ∧
        FilterEntry.models
          ⟨tabular_classification_models,
           tabular_classification_datasets⟩ = ms := by
  obtain ⟨ha, hb, hc⟩ :=
    filterByCriteria_criteria_robust "Tabular" [("small_data", true)]
  exact ⟨ha,
    hb [] (by decide) (by decide) (by decide),
    hc (by decide) (by decide) (by decide)
      [ ("classification",
         ⟨tabular_classification_models,
          tabular_classification_datasets⟩),
        ("regression",
         ⟨tabular_regression_models, tabular_regression_datasets⟩) ]
      "classification"
      ⟨tabular_classification_models, tabular_classification_datasets⟩
      (by decide) (by decide)⟩

/-- C10: every entry of a filterByCriteria result carries a model list
that is an order-preserving sublist of the original model list of its
subtask (the original itself in the fallback case), and the datasets
value exactly as stored. -/
theorem filterByCriteria_sublist_datasets :
    ∀ (t : String) (c : Criteria) (es : List (String × FilterEntry)),
      filter_by_criteria t c = .ok es →
      ∀ (n : String) (e : FilterEntry), (n, e) ∈ es →
      ∃ cat r ms ds, List.lookup t rules = some cat ∧
        (n, SubtaskData.record r) ∈ cat.subtasks ∧
        r.models = some ms ∧ r.datasets = some ds ∧
        e.models.Sublist ms ∧ e.datasets = ds := by
  intro t c es h n e hm
  obtain ⟨cat, hl, hf⟩ := filter_ok_inv h
  obtain ⟨r, ms, ds, hmem, h1, h2, h3, h4⟩ := filterSubtasks_mem hf hm
  refine ⟨cat, r, ms, ds, hl, hmem, h1, h2, ?_, h4⟩
  rw [h3]
  cases hemp : (criteriaFilter c ms).isEmpty
  · simp only [hemp, Bool.false_eq_true, if_false]
    exact criteriaFilter_sublist c ms
  · simp only [hemp, if_true]
    exact List.Sublist.refl ms

/-- C10 witness at Tabular with fast_training set: the regression entry
keeps LinearRegression, a sublist of the original models, with the
stored datasets. -/
theorem filterByCriteria_sublist_datasets_witness :
    ∃ cat r ms ds, List.lookup "Tabular" rules = some cat ∧
      ("regression", SubtaskData.record r) ∈ cat.subtasks ∧
      r.models = some ms ∧ r.datasets = some ds ∧
      (FilterEntry.models
        ⟨["LinearRegression"], tabular_regression_datasets⟩).Sublist ms ∧
      FilterEntry.datasets
        ⟨["LinearRegression"], tabular_regression_datasets⟩ = ds :=
  filterByCriteria_sublist_datasets "Tabular" [("fast_training", true)]
    [ ("classification",
       ⟨["LogisticRegression", "KNeighborsClassifier"],
        tabular_classification_datasets⟩),
      ("regression",
       ⟨["LinearRegression"], tabular_regression_datasets⟩) ]
    (by decide) "regression"
    ⟨["LinearRegression"], tabular_regression_datasets⟩ (by decide)

end AIONet
